import Mathlib

/-!
Verification of the IBKR OAuth 2.0 authentication component
(`src/IBKR/Authentication.py`) against its natural-language specification.

The Python module is shallowly embedded: each HTTP-facing function is split
into the request it builds (method, url, headers) and the pure function from
the HTTP response to the Python return value.  Exceptions raised by the Python
code (KeyError, JSONDecodeError, RuntimeError, UnboundLocalError) are modelled
with `Except`; Python `None` is `Option.none`.
-/

namespace IBKRAuth

/-- A JSON value, as far as the authentication module inspects them:
strings, integers and booleans.  JSON objects are association lists of
`String × JVal` (the module only reads top-level fields of objects). -/
inductive JVal where
  | str : String → JVal
  | num : Int → JVal
  | bool : Bool → JVal
deriving DecidableEq, Repr

/-- An HTTP response as observed by the module: the status code and the
parsed JSON body.  `body = none` models a body that is not valid JSON, so
that `resp.json()` raises JSONDecodeError. -/
structure HttpResponse where
  status : Nat
  body : Option (List (String × JVal))
deriving DecidableEq, Repr

/-- An outbound HTTP request as built by the module: method, url and the
headers dictionary (in insertion order). -/
structure Request where
  method : String
  url : String
  headers : List (String × String)
deriving DecidableEq, Repr

/-- The configuration record resolved from the environment
(lines 28-33 of Authentication.py). -/
structure Config where
  ip : String
  clientId : String
  clientKeyId : String
  credential : String
  path_to_PrivateKey : String
  scope : String
deriving DecidableEq, Repr

/-- Module-level constant `oauth2Url` (line 45). -/
def oauth2Url : String := "https://api.ibkr.com/oauth2"

/-- Module-level constant `gatewayUrl` (line 46). -/
def gatewayUrl : String := "https://api.ibkr.com/gw"

/-- Module-level constant `clientPortalUrl` (line 47). -/
def clientPortalUrl : String := "https://api.ibkr.com"

/-- Module-level constant `audience` (line 48). -/
def audience : String := "/token"

/-- Lines 28-38: the module reads six environment variables with
`os.getenv` (empty-string default, except `clientKeyId` defaulting to
"main" and `scope` defaulting to "sso-sessions.write") and raises
RuntimeError when any of `clientId`, `clientKeyId`, `credential`,
`path_to_PrivateKey` is falsy (empty).  The environment is modelled as a
partial map `String → Option String`; `none` means the variable is unset,
in which case `os.getenv` returns the supplied default.  This check runs at
module import time, before any of the request-building functions can
execute, so a failing check prevents every network call. -/
def startupCheck (env : String → Option String) : Except String Config :=
  if (env "clientId").getD "" = "" ∨ (env "clientKeyId").getD "main" = "" ∨
      (env "credential").getD "" = "" ∨ (env "path_to_PrivateKey").getD "" = "" then
    Except.error "Missing required env. Set: clientId, clientKeyId, credential, path_to_PrivateKey"
  else
    Except.ok ⟨(env "ip").getD "", (env "clientId").getD "",
      (env "clientKeyId").getD "main", (env "credential").getD "",
      (env "path_to_PrivateKey").getD "", (env "scope").getD "sso-sessions.write"⟩

/-- A concrete environment in which `ip` is unset while the four checked
variables are set: used to show the module does not validate `ip`. -/
def envWithoutIp : String → Option String := fun name =>
  if name = "clientId" then some "C1"
  else if name = "credential" then some "CRED"
  else if name = "path_to_PrivateKey" then some "key.pem"
  else none

/-- The constant JWS header built by `compute_client_assertion`
(lines 113-117): alg RS256, typ JWT, kid = clientKeyId. -/
def assertion_header (cfg : Config) : List (String × JVal) :=
  [("alg", JVal.str "RS256"), ("typ", JVal.str "JWT"), ("kid", JVal.str cfg.clientKeyId)]

/-- The claim-set construction of `compute_client_assertion` (lines 111-139).
The function branches on the literal url string: the token-endpoint url gets
the short-window claims, the session-endpoint url gets the 24-hour claims.
For any other url the Python local `claims` is never bound and the call
`make_jws(header, claims)` raises UnboundLocalError; this failure is
modelled as `none`.  `now` is `math.floor(time.time())`, an integer. -/
def compute_client_assertion_claims (cfg : Config) (url : String) (now : Int) :
    Option (List (String × JVal)) :=
  if url = oauth2Url ++ "/api/v1/token" then
    some [("iss", JVal.str cfg.clientId), ("sub", JVal.str cfg.clientId),
          ("aud", JVal.str audience), ("exp", JVal.num (now + 20)),
          ("iat", JVal.num (now - 10))]
  else if url = gatewayUrl ++ "/api/v1/sso-sessions" then
    some [("ip", JVal.str cfg.ip), ("credential", JVal.str cfg.credential),
          ("iss", JVal.str cfg.clientId), ("exp", JVal.num (now + 86400)),
          ("iat", JVal.num now)]
  else
    none

/-- The request built by `getAccessToken` (lines 145-159): a POST to the
token endpoint with a form-encoded body (the form fields carry the signed
assertion and are not needed by the header claims, so only the headers are
modelled). -/
def getAccessToken_request : Request :=
  ⟨"POST", oauth2Url ++ "/api/v1/token",
    [("Content-Type", "application/x-www-form-urlencoded")]⟩

/-- The response handling of `getAccessToken` (line 162):
`return token_request.json()["access_token"]`.  The HTTP status code is
never inspected; a non-JSON body raises JSONDecodeError and a JSON body
without the field raises KeyError. -/
def getAccessToken (resp : HttpResponse) : Except String JVal :=
  match resp.body with
  | none => Except.error "JSONDecodeError"
  | some kvs =>
    match List.lookup "access_token" kvs with
    | none => Except.error "KeyError: access_token"
    | some v => Except.ok v

/-- The request built by `getBearerToken` (lines 168-177): a POST to the
session endpoint whose body is the raw compact assertion, with an
Authorization header and Content-Type application/jwt — and no User-Agent
header. -/
def getBearerToken_request (access_token : String) : Request :=
  ⟨"POST", gatewayUrl ++ "/api/v1/sso-sessions",
    [("Authorization", "Bearer " ++ access_token),
     ("Content-Type", "application/jwt")]⟩

/-- The response handling of `getBearerToken` (lines 180-182): on status
200 it reads `access_token` from the JSON body (raising on a malformed
body); on any other status it falls through to a bare `return`, producing
Python `None`, modelled as `Except.ok none`. -/
def getBearerToken (resp : HttpResponse) : Except String (Option JVal) :=
  if resp.status = 200 then
    match resp.body with
    | none => Except.error "JSONDecodeError"
    | some kvs =>
      match List.lookup "access_token" kvs with
      | none => Except.error "KeyError: access_token"
      | some v => Except.ok (some v)
  else
    Except.ok none

/-- The request built by `ssodh_init` (lines 188-194): POST with
Authorization and User-Agent headers. -/
def ssodh_init_request (bearer_token : String) : Request :=
  ⟨"POST", clientPortalUrl ++ "/v1/api/iserver/auth/ssodh/init",
    [("Authorization", "Bearer " ++ bearer_token), ("User-Agent", "python/3.11")]⟩

/-- The request built by `validate_sso` (lines 197-202): GET with
Authorization and User-Agent headers. -/
def validate_sso_request (bearer_token : String) : Request :=
  ⟨"GET", clientPortalUrl ++ "/v1/api/sso/validate",
    [("Authorization", "Bearer " ++ bearer_token), ("User-Agent", "python/3.11")]⟩

/-- The return value of `validate_sso` (lines 197-203): the function prints
the formatted response and ends without a `return` statement, so Python
returns `None` for every response; the response payload is discarded. -/
def validate_sso_return (_resp : HttpResponse) : Option (List (String × JVal)) :=
  none

/-- The request built by `tickle` (lines 205-210): GET with Authorization
and User-Agent headers. -/
def tickle_request (bearer_token : String) : Request :=
  ⟨"GET", clientPortalUrl ++ "/v1/api/tickle",
    [("Authorization", "Bearer " ++ bearer_token), ("User-Agent", "python/3.11")]⟩

/-- The response handling of `tickle` (line 212):
`return tickle_request.json()['session']`. -/
def tickle (resp : HttpResponse) : Except String JVal :=
  match resp.body with
  | none => Except.error "JSONDecodeError"
  | some kvs =>
    match List.lookup "session" kvs with
    | none => Except.error "KeyError: session"
    | some v => Except.ok v

/-- The request built by `logoutSession` (lines 214-219): POST with
Authorization and User-Agent headers. -/
def logoutSession_request (bearer_token : String) : Request :=
  ⟨"POST", clientPortalUrl ++ "/v1/api/logout",
    [("Authorization", "Bearer " ++ bearer_token), ("User-Agent", "python/3.11")]⟩

/-- The RFC 4648 base64 alphabet as a function from 6-bit index to
character: 0-25 map to uppercase letters, 26-51 to lowercase letters,
52-61 to digits, 62 to '+' and 63 to '/'. -/
def b64char (n : Nat) : Char :=
  if n < 26 then Char.ofNat (65 + n)
  else if n < 52 then Char.ofNat (97 + (n - 26))
  else if n < 62 then Char.ofNat (48 + (n - 52))
  else if n = 62 then '+'
  else '/'

/-- Standard base64 of a byte string — the behaviour of Python's
`base64.b64encode` (line 94).  Bytes are taken three at a time to four
alphabet characters; a final group of one or two bytes is padded with
trailing '=' characters. -/
def b64encodeChunks : List Nat → List Char
  | [] => []
  | [b1] => [b64char (b1 / 4), b64char (b1 % 4 * 16), '=', '=']
  | [b1, b2] => [b64char (b1 / 4), b64char (b1 % 4 * 16 + b2 / 16),
                 b64char (b2 % 16 * 4), '=']
  | b1 :: b2 :: b3 :: rest =>
    b64char (b1 / 4) :: b64char (b1 % 4 * 16 + b2 / 16) ::
    b64char (b2 % 16 * 4 + b3 / 64) :: b64char (b3 % 64) :: b64encodeChunks rest

/-- Python `str.replace` for a single character, on the character list. -/
def replaceChar (a b : Char) (l : List Char) : List Char :=
  l.map (fun c => if c = a then b else c)

/-- Python `str.rstrip` with a single strip character: removes every
trailing occurrence of `a`. -/
def rstripChar (l : List Char) (a : Char) : List Char :=
  (l.reverse.dropWhile (fun c => c == a)).reverse

/-- `base64_encode` (lines 93-94): base64-encode, then make URL-safe by
replacing '+' with '-' and '/' with '_', then strip trailing '='. -/
def base64_encode (val : List Nat) : List Char :=
  rstripChar (replaceChar '/' '_' (replaceChar '+' '-' (b64encodeChunks val))) '='

/-- The composite effect on one character of the two `replace` calls in
`base64_encode`. -/
def urlsafeChar (c : Char) : Char :=
  if c = '+' then '-' else if c = '/' then '_' else c

end IBKRAuth

namespace IBKRAuth

/-! ### Helper lemmas -/

theorem b64char_bounded_ne_pad : ∀ n, n < 64 → b64char n ≠ '=' := by decide

theorem b64char_ne_pad (n : Nat) : b64char n ≠ '=' := by
  rcases Nat.lt_or_ge n 64 with h | h
  · exact b64char_bounded_ne_pad n h
  · unfold b64char
    rw [if_neg (show ¬n < 26 by omega), if_neg (show ¬n < 52 by omega),
        if_neg (show ¬n < 62 by omega), if_neg (show ¬n = 62 by omega)]
    decide

theorem b64encodeChunks_shape (bytes : List Nat) :
    ∃ l k, b64encodeChunks bytes = l ++ List.replicate k '=' ∧
      ∀ c ∈ l, ∃ n, c = b64char n := by
  induction bytes using b64encodeChunks.induct with
  | case1 =>
    exact ⟨[], 0, rfl, by simp⟩
  | case2 b1 =>
    refine ⟨[b64char (b1 / 4), b64char (b1 % 4 * 16)], 2, rfl, ?_⟩
    intro c hc
    simp only [List.mem_cons, List.not_mem_nil, or_false] at hc
    rcases hc with rfl | rfl
    · exact ⟨_, rfl⟩
    · exact ⟨_, rfl⟩
  | case3 b1 b2 =>
    refine ⟨[b64char (b1 / 4), b64char (b1 % 4 * 16 + b2 / 16),
             b64char (b2 % 16 * 4)], 1, rfl, ?_⟩
    intro c hc
    simp only [List.mem_cons, List.not_mem_nil, or_false] at hc
    rcases hc with rfl | rfl | rfl
    · exact ⟨_, rfl⟩
    · exact ⟨_, rfl⟩
    · exact ⟨_, rfl⟩
  | case4 b1 b2 b3 rest ih =>
    obtain ⟨l, k, he, hmem⟩ := ih
    refine ⟨b64char (b1 / 4) :: b64char (b1 % 4 * 16 + b2 / 16) ::
            b64char (b2 % 16 * 4 + b3 / 64) :: b64char (b3 % 64) :: l, k, ?_, ?_⟩
    · simp [b64encodeChunks, he]
    · intro c hc
      simp only [List.mem_cons] at hc
      rcases hc with rfl | rfl | rfl | rfl | hc
      · exact ⟨_, rfl⟩
      · exact ⟨_, rfl⟩
      · exact ⟨_, rfl⟩
      · exact ⟨_, rfl⟩
      · exact hmem c hc

theorem urlsafeChar_after_replaces (c : Char) :
    (if (if c = '+' then '-' else c) = '/' then '_' else (if c = '+' then '-' else c)) =
      urlsafeChar c := by
  unfold urlsafeChar
  by_cases h1 : c = '+'
  · subst h1; decide
  · by_cases h2 : c = '/'
    · subst h2; decide
    · simp [h1, h2]

theorem replace_replace_eq_map (l : List Char) :
    replaceChar '/' '_' (replaceChar '+' '-' l) = l.map urlsafeChar := by
  induction l with
  | nil => rfl
  | cons c t ih =>
    simp only [replaceChar, List.map_cons, List.map_map] at *
    rw [urlsafeChar_after_replaces, ih]

theorem urlsafeChar_ne_plus (c : Char) : urlsafeChar c ≠ '+' := by
  unfold urlsafeChar
  by_cases h1 : c = '+'
  · subst h1; decide
  · by_cases h2 : c = '/'
    · subst h2; decide
    · simp [h1, h2]

theorem urlsafeChar_ne_slash (c : Char) : urlsafeChar c ≠ '/' := by
  unfold urlsafeChar
  by_cases h1 : c = '+'
  · subst h1; decide
  · by_cases h2 : c = '/'
    · subst h2; decide
    · simp [h1, h2]

theorem urlsafeChar_pad (c : Char) (h : urlsafeChar c = '=') : c = '=' := by
  unfold urlsafeChar at h
  by_cases h1 : c = '+'
  · subst h1; exact absurd h (by decide)
  · by_cases h2 : c = '/'
    · subst h2; exact absurd h (by decide)
    · simpa [h1, h2] using h

theorem dropWhile_replicate_append (p : Char → Bool) (c : Char) (hp : p c = true)
    (k : Nat) (t : List Char) :
    List.dropWhile p (List.replicate k c ++ t) = List.dropWhile p t := by
  induction k with
  | zero => rfl
  | succ k ih => simp [List.replicate_succ, List.dropWhile_cons, hp, ih]

theorem dropWhile_no_match (t : List Char) (c : Char) (h : c ∉ t) :
    List.dropWhile (fun x => x == c) t = t := by
  cases t with
  | nil => rfl
  | cons a t' =>
    have ha : ¬a = c := fun e => h (e ▸ List.mem_cons_self a t')
    simp [List.dropWhile_cons, ha]

/-! ### Claim theorems -/

/-- Claim C1: for the token-endpoint audience the claim set is exactly
iss = clientId, sub = clientId, aud = "/token", exp = now + 20,
iat = now - 10; hence exp - iat = 30 and now - iat = 10. -/
theorem token_endpoint_claims (cfg : Config) (now : Int) :
    compute_client_assertion_claims cfg (oauth2Url ++ "/api/v1/token") now =
      some [("iss", JVal.str cfg.clientId), ("sub", JVal.str cfg.clientId),
            ("aud", JVal.str "/token"), ("exp", JVal.num (now + 20)),
            ("iat", JVal.num (now - 10))] ∧
    (now + 20) - (now - 10) = 30 ∧ now - (now - 10) = 10 := by
  refine ⟨rfl, by ring, by ring⟩

/-- Claim C2: for the session-endpoint audience the claim set is exactly
ip = sourceIp, credential = credential, iss = clientId, exp = now + 86400,
iat = now; hence exp - iat = 86400 and iat = now. -/
theorem session_endpoint_claims (cfg : Config) (now : Int) :
    compute_client_assertion_claims cfg (gatewayUrl ++ "/api/v1/sso-sessions") now =
      some [("ip", JVal.str cfg.ip), ("credential", JVal.str cfg.credential),
            ("iss", JVal.str cfg.clientId), ("exp", JVal.num (now + 86400)),
            ("iat", JVal.num now)] ∧
    (now + 86400) - now = 86400 := by
  refine ⟨rfl, by ring⟩

/-- Claim C10: `compute_client_assertion` is defined only for the two
recognized audience urls; any other url leaves `claims` unbound and the
function fails instead of producing an assertion. -/
theorem assertion_unknown_audience_fails (cfg : Config) (url : String) (now : Int)
    (h1 : url ≠ oauth2Url ++ "/api/v1/token")
    (h2 : url ≠ gatewayUrl ++ "/api/v1/sso-sessions") :
    compute_client_assertion_claims cfg url now = none := by
  unfold compute_client_assertion_claims
  rw [if_neg h1, if_neg h2]

/-- Witness for C10: the unrelated url "https://example.com" matches
neither recognized audience url and the claim construction fails. -/
theorem assertion_unknown_audience_fails_witness :
    compute_client_assertion_claims
      ⟨"1.2.3.4", "C1", "main", "CRED", "key.pem", "sso-sessions.write"⟩
      "https://example.com" 1000 = none :=
  assertion_unknown_audience_fails _ _ _ (by decide) (by decide)

/-- Counterexample to C3: `getAccessToken` never inspects the HTTP status,
so a status-500 response whose body carries an access_token field is
answered with that token instead of failing. -/
theorem getAccessToken_ignores_http_status :
    getAccessToken ⟨500, some [("access_token", JVal.str "tok123")]⟩ =
      Except.ok (JVal.str "tok123") := rfl

/-- Claim C3, amended: `getAccessToken` fails exactly when the body is not
JSON or lacks the access_token field, regardless of the HTTP status (the
status is never checked); whenever the body carries access_token, its value
is returned — in particular on HTTP 200 with a well-formed body. -/
theorem getAccessToken_spec (resp : HttpResponse) :
    (∀ kvs v, resp.body = some kvs → List.lookup "access_token" kvs = some v →
      getAccessToken resp = Except.ok v) ∧
    (resp.body = none → ∃ e, getAccessToken resp = Except.error e) ∧
    (∀ kvs, resp.body = some kvs → List.lookup "access_token" kvs = none →
      ∃ e, getAccessToken resp = Except.error e) := by
  refine ⟨?_, ?_, ?_⟩
  · intro kvs v h1 h2
    simp [getAccessToken, h1, h2]
  · intro h1
    exact ⟨"JSONDecodeError", by simp [getAccessToken, h1]⟩
  · intro kvs h1 h2
    exact ⟨"KeyError: access_token", by simp [getAccessToken, h1, h2]⟩

/-- Witness for amended C3: on HTTP 200 with body access_token = "tok123"
the function returns exactly "tok123". -/
theorem getAccessToken_spec_witness :
    getAccessToken ⟨200, some [("access_token", JVal.str "tok123")]⟩ =
      Except.ok (JVal.str "tok123") :=
  (getAccessToken_spec ⟨200, some [("access_token", JVal.str "tok123")]⟩).1
    _ _ rfl rfl

/-- Claim C4: `getBearerToken` returns the access_token value of the JSON
body on HTTP 200, and returns Python None (no exception) on every non-200
status. -/
theorem getBearerToken_spec (resp : HttpResponse) :
    (∀ kvs v, resp.status = 200 → resp.body = some kvs →
      List.lookup "access_token" kvs = some v →
      getBearerToken resp = Except.ok (some v)) ∧
    (resp.status ≠ 200 → getBearerToken resp = Except.ok none) := by
  constructor
  · intro kvs v h0 h1 h2
    simp [getBearerToken, h0, h1, h2]
  · intro h0
    simp [getBearerToken, h0]

/-- Witness for C4: a 401 response yields None without raising, and a 200
response with body access_token = "bear456" yields "bear456". -/
theorem getBearerToken_spec_witness :
    getBearerToken ⟨401, none⟩ = Except.ok none ∧
    getBearerToken ⟨200, some [("access_token", JVal.str "bear456")]⟩ =
      Except.ok (some (JVal.str "bear456")) :=
  ⟨(getBearerToken_spec ⟨401, none⟩).2 (by decide),
   (getBearerToken_spec ⟨200, some [("access_token", JVal.str "bear456")]⟩).1
     _ _ rfl rfl rfl⟩

/-- Claim C5: for every input byte string, `base64_encode` produces a
string with no '+', no '/' and no '=' — it base64-encodes, replaces '+'
with '-', replaces '/' with '_', and strips all trailing '=' padding. -/
theorem base64_encode_urlsafe (val : List Nat) :
    '+' ∉ base64_encode val ∧ '/' ∉ base64_encode val ∧ '=' ∉ base64_encode val := by
  obtain ⟨l, k, he, hmem⟩ := b64encodeChunks_shape val
  unfold base64_encode rstripChar
  rw [replace_replace_eq_map, he]
  have hmap : (l ++ List.replicate k '=').map urlsafeChar =
      l.map urlsafeChar ++ List.replicate k '=' := by
    rw [List.map_append, List.map_replicate, show urlsafeChar '=' = '=' from rfl]
  have hnl : '=' ∉ l.map urlsafeChar := by
    intro hmm
    obtain ⟨c, hc, hce⟩ := List.mem_map.mp hmm
    obtain ⟨n, rfl⟩ := hmem c hc
    exact b64char_ne_pad n (urlsafeChar_pad _ hce)
  have hrev : (l.map urlsafeChar ++ List.replicate k '=').reverse =
      List.replicate k '=' ++ (l.map urlsafeChar).reverse := by
    rw [List.reverse_append, List.reverse_replicate]
  rw [hmap, hrev, dropWhile_replicate_append _ '=' (by decide),
      dropWhile_no_match _ '=' (by simpa using hnl), List.reverse_reverse]
  refine ⟨?_, ?_, hnl⟩
  · intro hmm
    obtain ⟨c, _, hce⟩ := List.mem_map.mp hmm
    exact urlsafeChar_ne_plus c hce
  · intro hmm
    obtain ⟨c, _, hce⟩ := List.mem_map.mp hmm
    exact urlsafeChar_ne_slash c hce

/-- Counterexample to C6: the bearer/session-token request built by
`getBearerToken` carries no User-Agent header at all. -/
theorem getBearerToken_request_lacks_user_agent :
    List.lookup "User-Agent" (getBearerToken_request "tok").headers = none := rfl

/-- Claim C6, amended: every SessionManager request (ssodh_init,
validate_sso, tickle, logoutSession) carries both an Authorization Bearer
header and a User-Agent header; the bearer/session-token request carries
the Authorization Bearer header but no User-Agent header. -/
theorem component_request_headers (t : String) :
    List.lookup "Authorization" (ssodh_init_request t).headers = some ("Bearer " ++ t) ∧
    List.lookup "User-Agent" (ssodh_init_request t).headers = some "python/3.11" ∧
    List.lookup "Authorization" (validate_sso_request t).headers = some ("Bearer " ++ t) ∧
    List.lookup "User-Agent" (validate_sso_request t).headers = some "python/3.11" ∧
    List.lookup "Authorization" (tickle_request t).headers = some ("Bearer " ++ t) ∧
    List.lookup "User-Agent" (tickle_request t).headers = some "python/3.11" ∧
    List.lookup "Authorization" (logoutSession_request t).headers = some ("Bearer " ++ t) ∧
    List.lookup "User-Agent" (logoutSession_request t).headers = some "python/3.11" ∧
    List.lookup "Authorization" (getBearerToken_request t).headers = some ("Bearer " ++ t) ∧
    List.lookup "User-Agent" (getBearerToken_request t).headers = none :=
  ⟨rfl, rfl, rfl, rfl, rfl, rfl, rfl, rfl, rfl, rfl⟩

/-- Counterexample to C7: in an environment where `ip` is unset but the
four checked variables are set, startup succeeds (ip resolves to the empty
string and is never validated), so a missing source IP does not fail. -/
theorem startup_accepts_missing_ip :
    envWithoutIp "ip" = none ∧
    startupCheck envWithoutIp =
      Except.ok ⟨"", "C1", "main", "CRED", "key.pem", "sso-sessions.write"⟩ := by
  exact ⟨rfl, rfl⟩

/-- Claim C7, amended: if clientId, credential or path_to_PrivateKey is
absent from the environment, startup fails with a configuration error (at
module import, before any network call); the source IP is read but not
checked; clientKeyId defaults to "main" and scope defaults to
"sso-sessions.write" when unset. -/
theorem startup_config_spec (env : String → Option String) :
    ((env "clientId" = none ∨ env "credential" = none ∨
        env "path_to_PrivateKey" = none) →
      ∃ e, startupCheck env = Except.error e) ∧
    (∀ c, startupCheck env = Except.ok c →
      (env "clientKeyId" = none → c.clientKeyId = "main") ∧
      (env "scope" = none → c.scope = "sso-sessions.write")) := by
  constructor
  · intro h
    refine ⟨"Missing required env. Set: clientId, clientKeyId, credential, path_to_PrivateKey", ?_⟩
    unfold startupCheck
    rcases h with h | h | h <;> simp [h]
  · intro c hc
    unfold startupCheck at hc
    split at hc
    · cases hc
    · injection hc with h2
      subst h2
      constructor
      · intro hk; simp [hk]
      · intro hs; simp [hs]

/-- Witness for amended C7: with every variable unset, startup fails with
the configuration error. -/
theorem startup_config_spec_witness :
    ∃ e, startupCheck (fun _ => none) = Except.error e :=
  (startup_config_spec (fun _ => none)).1 (Or.inl rfl)

/-- Counterexample to C8: `validate_sso` returns Python None even for a
response carrying a session-validity payload — the payload is printed, not
returned. -/
theorem validate_sso_discards_payload :
    validate_sso_return ⟨200, some [("RESULT", JVal.bool true)]⟩ ≠
      some [("RESULT", JVal.bool true)] := by
  simp [validate_sso_return]

/-- Claim C8, amended: `validate_sso` issues a GET to the validation
endpoint (with Bearer Authorization) and prints the response, but returns
None to the caller for every response; the raw payload is not returned. -/
theorem validate_sso_spec (t : String) (resp : HttpResponse) :
    (validate_sso_request t).method = "GET" ∧
    (validate_sso_request t).url = "https://api.ibkr.com/v1/api/sso/validate" ∧
    validate_sso_return resp = none :=
  ⟨rfl, rfl, rfl⟩

/-- Claim C9: whenever the tickle response body contains a session field,
`tickle` returns exactly its value. -/
theorem tickle_spec (resp : HttpResponse) (kvs : List (String × JVal)) (v : JVal)
    (h1 : resp.body = some kvs) (h2 : List.lookup "session" kvs = some v) :
    tickle resp = Except.ok v := by
  simp [tickle, h1, h2]

/-- Witness for C9: a tickle response with session = "sess789" (plus an
extra field) yields exactly "sess789". -/
theorem tickle_spec_witness :
    tickle ⟨200, some [("session", JVal.str "sess789"), ("ssoExpires", JVal.num 413322)]⟩ =
      Except.ok (JVal.str "sess789") :=
  tickle_spec _ _ _ rfl rfl

end IBKRAuth
